import Mathlib

/-!
Verification of the suggestion backend (`src/server.js`, with the earlier
variant kept in `src/unnamed/part_000`).

The development shallowly embeds the two functions that carry the real logic,
`generateFallbackSuggestions` and `analyzeWithOpenAI`, plus the
`POST /api/analyze-content` request handler.  JavaScript strings are modelled
as Lean `String` (code points instead of UTF-16 units; identical on the ASCII
data appearing here), JSON values as the inductive `JVal`, and the external
language-model call as an `Except String String` parameter: `.ok text` is the
returned message text, `.error msg` a thrown transport failure.  Timestamps
and logging output are outside the model; the one behaviourally relevant
effect of the handler's logging line (it evaluates `content.substring(0, 100)`,
which throws on non-string content) is modelled explicitly.
-/

namespace Backend

/-- Model of JavaScript `String.prototype.includes` (substring test). -/
def listIncludes (sub : List Char) : List Char → Bool
  | [] => sub.isEmpty
  | c :: cs => sub.isPrefixOf (c :: cs) || listIncludes sub cs

/-- Model of JavaScript `s.includes(sub)`. -/
def includes (s : String) (sub : String) : Bool :=
  listIncludes sub.data s.data

/-- Whitespace characters removed by JavaScript `String.prototype.trim`
(restricted to the ASCII whitespace occurring in this system's data). -/
def isWsChar (c : Char) : Bool :=
  c = ' ' || c = '\n' || c = '\t' || c = '\r'

/-- Model of JavaScript `String.prototype.trim`. -/
def jsTrim (s : String) : String :=
  String.mk (((s.data.dropWhile isWsChar).reverse.dropWhile isWsChar).reverse)

/-- Model of JavaScript `String.prototype.toLowerCase` (ASCII-faithful;
the keywords tested by the fallback generator are all ASCII). -/
def toLowerCase (s : String) : String :=
  String.mk (s.data.map Char.toLower)

/-- Suggestion record produced by the fallback generator:
an object with `title` and `description` string fields. -/
structure Suggestion where
  title : String
  description : String
deriving DecidableEq

/-- Embedding of `generateFallbackSuggestions` (src/server.js lines 187-235;
identical text at src/unnamed/part_000 lines 142-190): lower-case the content,
push one fixed suggestion per matched keyword family in source order
(data, marketing, leadership, tech), fall back to two fixed defaults when
nothing matched, and truncate to at most 2 entries. -/
def generateFallbackSuggestions (content : String) : List Suggestion :=
  let contentLower := toLowerCase content
  let suggestions : List Suggestion :=
    (if includes contentLower "data" || includes contentLower "analytics" || includes contentLower "analysis" then
      [⟨"Data Analytics Courses", "Explore data science and analytics courses on LinkedIn Learning"⟩]
     else [])
    ++ (if includes contentLower "marketing" || includes contentLower "brand" || includes contentLower "campaign" then
      [⟨"Digital Marketing Resources", "Find marketing professionals and learning resources"⟩]
     else [])
    ++ (if includes contentLower "leadership" || includes contentLower "management" || includes contentLower "team" then
      [⟨"Leadership Development", "Connect with leaders and explore management courses"⟩]
     else [])
    ++ (if includes contentLower "tech" || includes contentLower "software" || includes contentLower "developer" then
      [⟨"Technology Skills", "Discover the latest tech courses and connect with developers"⟩]
     else [])
  let suggestions :=
    if suggestions.length = 0 then
      suggestions ++
        [⟨"Professional Development", "Discover learning opportunities related to this topic"⟩,
         ⟨"Network Growth", "Connect with professionals in your field"⟩]
    else suggestions
  suggestions.take 2

/-! ## JSON values and the model of `JSON.parse` -/

/-- JSON values (JavaScript numbers restricted to the integers; no claim
depends on fractional numeric values). -/
inductive JVal where
  | null
  | bool (b : Bool)
  | num (n : Int)
  | str (s : String)
  | arr (elems : List JVal)
  | obj (fields : List (String × JVal))

/-- JavaScript truthiness of a value. -/
def jsTruthy : JVal → Bool
  | .null => false
  | .bool b => b
  | .num n => n != 0
  | .str s => s != ""
  | .arr _ => true
  | .obj _ => true

/-- Property access `v[key]` on a JavaScript value.  Access on `null`
throws a `TypeError` (`Except.error`); on any other value it yields the
property or `undefined` (`none`).  On objects the last binding of a
duplicated key wins, matching `JSON.parse`. -/
def getProp (v : JVal) (key : String) : Except String (Option JVal) :=
  match v with
  | .null => .error ("Cannot read properties of null (reading " ++ key ++ ")")
  | .obj fields => .ok (fields.reverse.lookup key)
  | _ => .ok none

/-- JavaScript `a || b` where `a` may be `undefined` (`none`). -/
def jsOr (v : Option JVal) (d : JVal) : JVal :=
  match v with
  | some x => if jsTruthy x then x else d
  | none => d

/-- Numeric value of consecutive decimal digits. -/
def digitsToNat (ds : List Char) : Nat :=
  ds.foldl (fun a c => 10 * a + (c.toNat - 48)) 0

/-- Skip JSON whitespace. -/
def skipWs (cs : List Char) : List Char :=
  cs.dropWhile isWsChar

/-- Unescape one character of a JSON string escape sequence.  The rare
`\uXXXX` form is not modelled and makes the parse fail. -/
def escChar (c : Char) : Option Char :=
  if c = 'n' then some '\n'
  else if c = 't' then some '\t'
  else if c = 'r' then some '\r'
  else if c = '"' then some c
  else if c = '\\' then some c
  else if c = '/' then some c
  else if c = 'b' then some (Char.ofNat 8)
  else if c = 'f' then some (Char.ofNat 12)
  else none

/-- Parse the body of a JSON string after the opening quote; returns the
string's characters and the input remaining after the closing quote. -/
def parseStringBody : List Char → Option (List Char × List Char)
  | [] => none
  | '"' :: rest => some ([], rest)
  | '\\' :: c :: rest => do
      let e ← escChar c
      let (s, r) ← parseStringBody rest
      pure (e :: s, r)
  | '\\' :: [] => none
  | c :: rest => do
      let (s, r) ← parseStringBody rest
      pure (c :: s, r)

/-- Parse a JSON number (integer part only; a fractional or exponent tail is
left in the remainder and rejected by the caller at top level). -/
def parseNumber (cs : List Char) : Option (JVal × List Char) :=
  match cs with
  | '-' :: rest =>
      match rest.span Char.isDigit with
      | ([], _) => none
      | (ds, r) => some (.num (-(digitsToNat ds : Int)), r)
  | _ =>
      match cs.span Char.isDigit with
      | ([], _) => none
      | (ds, r) => some (.num (digitsToNat ds : Int), r)

mutual

/-- Fuel-driven recursive-descent parse of one JSON value. -/
def parseValue : Nat → List Char → Option (JVal × List Char)
  | 0, _ => none
  | fuel + 1, cs =>
    match skipWs cs with
    | [] => none
    | '"' :: rest => do
        let (s, r) ← parseStringBody rest
        pure (.str (String.mk s), r)
    | '[' :: rest =>
        (match skipWs rest with
         | ']' :: r => some (.arr [], r)
         | rest2 => do
            let (vs, r) ← parseElems fuel rest2
            pure (.arr vs, r))
    | '{' :: rest =>
        (match skipWs rest with
         | '}' :: r => some (.obj [], r)
         | rest2 => do
            let (fs, r) ← parseFields fuel rest2
            pure (.obj fs, r))
    | c :: rest =>
        if [ 'n', 'u', 'l', 'l'].isPrefixOf (c :: rest) then some (.null, (c :: rest).drop 4)
        else if [ 't', 'r', 'u', 'e'].isPrefixOf (c :: rest) then some (.bool true, (c :: rest).drop 4)
        else if [ 'f', 'a', 'l', 's', 'e'].isPrefixOf (c :: rest) then some (.bool false, (c :: rest).drop 5)
        else if c = '-' || c.isDigit then parseNumber (c :: rest)
        else none

/-- Parse the elements of a non-empty JSON array, up to and including the
closing bracket. -/
def parseElems : Nat → List Char → Option (List JVal × List Char)
  | 0, _ => none
  | fuel + 1, cs => do
      let (v, rest) ← parseValue fuel cs
      match skipWs rest with
      | ',' :: r => do
          let (vs, r2) ← parseElems fuel r
          pure (v :: vs, r2)
      | ']' :: r => pure ([v], r)
      | _ => none

/-- Parse the fields of a non-empty JSON object, up to and including the
closing brace. -/
def parseFields : Nat → List Char → Option (List (String × JVal) × List Char)
  | 0, _ => none
  | fuel + 1, cs =>
      match skipWs cs with
      | '"' :: rest => do
          let (key, r1) ← parseStringBody rest
          match skipWs r1 with
          | ':' :: r2 => do
              let (v, r3) ← parseValue fuel r2
              match skipWs r3 with
              | ',' :: r4 => do
                  let (fs, r5) ← parseFields fuel r4
                  pure ((String.mk key, v) :: fs, r5)
              | '}' :: r4 => pure ([(String.mk key, v)], r4)
              | _ => none
          | _ => none
      | _ => none

end

/-- Model of the JavaScript builtin `JSON.parse` (an external collaborator):
`some` on a well-formed document, `none` on a parse failure. -/
def parseJson (s : String) : Option JVal :=
  match parseValue (s.data.length + 1) s.data with
  | some (v, rest) => if (skipWs rest).isEmpty then some v else none
  | none => none

/-! ## The suggestion resolver -/

/-- Left-to-right removal of every occurrence of the literal token `pat`
together with one optional following newline; this is JavaScript
`s.replace(re, "")` for a regular expression of the shape `/pat\n?/g`.
The fuel is the input length: at least one character is consumed per step. -/
def removeTokenAux (pat : List Char) : Nat → List Char → List Char
  | _, [] => []
  | 0, s => s
  | fuel + 1, c :: cs =>
    if pat.isPrefixOf (c :: cs) then
      match (c :: cs).drop pat.length with
      | '\n' :: rest => removeTokenAux pat fuel rest
      | rest => removeTokenAux pat fuel rest
    else c :: removeTokenAux pat fuel cs

/-- Model of `s.replace(/pat\n?/g, "")` for a literal `pat`. -/
def removeTokenOptNl (pat : String) (s : String) : String :=
  String.mk (removeTokenAux pat.data s.data.length s.data)

/-- Response cleanup of `analyzeWithOpenAI` (src/server.js lines 152-155):
trim the message text, strip markdown code fences (first `/```json\n?/g`,
then `/```\n?/g`), and trim again. -/
def cleanResponse (text : String) : String :=
  jsTrim (removeTokenOptNl "```" (removeTokenOptNl "```json" (jsTrim text)))

/-- The JavaScript object literal built by the fallback generator,
as a JSON value (`title` before `description`, in insertion order). -/
def Suggestion.toJVal (s : Suggestion) : JVal :=
  .obj [("title", .str s.title), ("description", .str s.description)]

/-- The arrow function mapped over the suggestion array
(src/server.js lines 171-174): build an object of exactly the fields
`title` and `description`, substituting the fixed default for a missing
or falsy field via JavaScript `||`.  A `null` element makes the property
access throw; the error propagates to the resolver's outer `catch`. -/
def normalizeSuggestion (j : JVal) : Except String JVal := do
  let t ← getProp j "title"
  let d ← getProp j "description"
  pure (.obj [("title", jsOr t (.str "Professional Development")),
              ("description", jsOr d (.str "Explore related opportunities on LinkedIn"))])

/-- JavaScript `Array.prototype.map` with a callback that can throw:
elements are processed left to right, the first thrown error aborts. -/
def mapSuggestions : List JVal → Except String (List JVal)
  | [] => .ok []
  | j :: js => do
      let v ← normalizeSuggestion j
      let vs ← mapSuggestions js
      pure (v :: vs)

/-- Body of the `try` block of `analyzeWithOpenAI` after the external call
succeeded with message text `text` (src/server.js lines 152-176): clean the
text, attempt `JSON.parse` (parse failure substitutes the fallback
suggestions), replace a non-array or empty-array value by the fallback
suggestions, then `slice(0, 2)` and normalize each element.  The map
callback throws on a `null` element; the error is caught by the resolver's
`catch` (line 178), modelled in `analyzeWithOpenAI`. -/
def normalizeResponse (content : String) (text : String) : Except String (List JVal) :=
  let responseContent := cleanResponse text
  let suggestions : JVal :=
    match parseJson responseContent with
    | some v => v
    | none => .arr ((generateFallbackSuggestions content).map Suggestion.toJVal)
  let elems : List JVal :=
    match suggestions with
    | .arr es =>
        if es.length = 0 then (generateFallbackSuggestions content).map Suggestion.toJVal else es
    | _ => (generateFallbackSuggestions content).map Suggestion.toJVal
  mapSuggestions (elems.take 2)

/-- Embedding of `analyzeWithOpenAI` from src/server.js (lines 112-184).
`apiKeyConfigured` models `!!process.env.OPENAI_API_KEY`; `ext` models the
external language-model call.  Failures thrown anywhere inside the `try` —
by the external call or by the normalization map — are caught at line 178
and replaced by the fallback suggestions. -/
def analyzeWithOpenAI (apiKeyConfigured : Bool) (ext : Except String String) (content : String) : List JVal :=
  if !apiKeyConfigured then
    (generateFallbackSuggestions content).map Suggestion.toJVal
  else
    match ext with
    | .error _ => (generateFallbackSuggestions content).map Suggestion.toJVal
    | .ok text =>
        match normalizeResponse content text with
        | .ok out => out
        | .error _ => (generateFallbackSuggestions content).map Suggestion.toJVal

/-- Embedding of `analyzeWithOpenAI` from the variant server
src/unnamed/part_000 (lines 69-139).  It differs from src/server.js in the
missing-credential case only: instead of returning the fallback suggestions
it throws `Error('OpenAI API key not configured')`, modelled as
`Except.error`. -/
def analyzeWithOpenAIV0 (apiKeyConfigured : Bool) (ext : Except String String) (content : String) :
    Except String (List JVal) :=
  if !apiKeyConfigured then
    Except.error "OpenAI API key not configured"
  else
    match ext with
    | .error _ => .ok ((generateFallbackSuggestions content).map Suggestion.toJVal)
    | .ok text =>
        match normalizeResponse content text with
        | .ok out => .ok out
        | .error _ => .ok ((generateFallbackSuggestions content).map Suggestion.toJVal)

/-! ## The request handler -/

/-- Outcome of `POST /api/analyze-content`: either the 200 body's
`suggestions` and `contentLength` fields, or an error status with the
`error` field (the 200 body's timestamp is outside the model). -/
inductive Response where
  | ok (suggestions : List JVal) (contentLength : Nat)
  | err (status : Nat) (error : String)

/-- The handler's `catch` branch (src/server.js lines 98-108): classify the
thrown failure by substring inspection of its message — `"API key"` is
checked first and yields 500, then `"rate limit"` yields 429, anything else
a generic 500. -/
def classifyCatch (message : String) : Response :=
  if includes message "API key" then .err 500 "Service configuration error"
  else if includes message "rate limit" then .err 429 "Service temporarily busy, please try again"
  else .err 500 "Analysis temporarily unavailable"

/-- JavaScript truthiness of a possibly-`undefined` value. -/
def jsTruthyOpt : Option JVal → Bool
  | none => false
  | some v => jsTruthy v

/-- The `length` property of a JavaScript value: defined for strings and
arrays, looked up on plain objects, `undefined` (`none`) otherwise. -/
def jsLength : JVal → Option JVal
  | .str s => some (.num s.length)
  | .arr es => some (.num es.length)
  | .obj fields => fields.reverse.lookup "length"
  | _ => none

/-- JavaScript numeric coercion of a string (`ToNumber`), restricted to
optionally-signed decimal integers and the empty string; other forms
(floats, hex, exponents) are modelled as NaN (`none`). -/
def strToNum (s : String) : Option Int :=
  let t := jsTrim s
  if t.data.isEmpty then some 0
  else match t.data with
  | '-' :: ds => if !ds.isEmpty && ds.all Char.isDigit then some (-(digitsToNat ds : Int)) else none
  | ds => if ds.all Char.isDigit then some ((digitsToNat ds : Int)) else none

/-- Model of the JavaScript comparison `x < 10` where `x` may be
`undefined`: numbers compare numerically, `undefined` and other NaN-coercing
shapes compare false, `null` and booleans coerce to 0 or 1. -/
def jsLtTen : Option JVal → Bool
  | none => false
  | some .null => true
  | some (.bool _) => true
  | some (.num m) => decide (m < 10)
  | some (.str s) =>
      match strToNum s with
      | some m => decide (m < 10)
      | none => false
  | some (.arr []) => true
  | some (.arr _) => false
  | some (.obj _) => false

/-- Embedding of the `POST /api/analyze-content` handler (src/server.js
lines 77-109).  `content` is the body's `content` field (`none` when
absent).  The first component is the HTTP outcome; the second records
whether `analyzeWithOpenAI` was invoked.  For truthy non-string content the
logging statement's `content.substring(0, 100)` (line 87) throws before the
resolver is called; the thrown `TypeError`'s message reaches the `catch`
classifier. -/
def handleAnalyzeContent (apiKeyConfigured : Bool) (ext : Except String String) (content : Option JVal) :
    Response × Bool :=
  if !(jsTruthyOpt content) || jsLtTen (content.bind jsLength) then
    (.err 400 "Content is required and must be at least 10 characters long", false)
  else
    match content with
    | some (.str s) => (.ok (analyzeWithOpenAI apiKeyConfigured ext s) s.length, true)
    | _ => (classifyCatch "content.substring is not a function", false)

/-! ## Specification-side descriptions of the fallback generator -/

/-- A keyword family matches when the lower-cased content contains one of
its keywords. -/
def matchesFamily (content : String) (kws : List String) : Bool :=
  kws.any (fun k => includes (toLowerCase content) k)

/-- The four keyword families and their fixed suggestions, in the source's
precedence order: data, then marketing, then leadership, then tech. -/
def keywordFamilies : List (List String × Suggestion) :=
  [ (["data", "analytics", "analysis"],
     ⟨"Data Analytics Courses", "Explore data science and analytics courses on LinkedIn Learning"⟩),
    (["marketing", "brand", "campaign"],
     ⟨"Digital Marketing Resources", "Find marketing professionals and learning resources"⟩),
    (["leadership", "management", "team"],
     ⟨"Leadership Development", "Connect with leaders and explore management courses"⟩),
    (["tech", "software", "developer"],
     ⟨"Technology Skills", "Discover the latest tech courses and connect with developers"⟩) ]

/-- One fixed suggestion per matched keyword family, collected in the fixed
precedence order — the claim-side description of what the fallback generator
gathers before truncation. -/
def matchedSuggestions (content : String) : List Suggestion :=
  (keywordFamilies.filter (fun f => matchesFamily content f.1)).map Prod.snd

/-- The two default suggestions used when no keyword family matches. -/
def defaultSuggestions : List Suggestion :=
  [⟨"Professional Development", "Discover learning opportunities related to this topic"⟩,
   ⟨"Network Growth", "Connect with professionals in your field"⟩]

/-- The twelve keywords of the four families. -/
def allKeywords : List String :=
  ((keywordFamilies.map Prod.fst).foldr (· ++ ·) [])

/-- A normalized suggestion object whose `title` and `description` fields are
both strings — the shape the spec's data model prescribes. -/
def isTitleDescriptionStrings : JVal → Bool
  | .obj [("title", .str _), ("description", .str _)] => true
  | _ => false

/-! ## Helper lemmas about the fallback generator -/

theorem matchesFamily_one (content : String) :
    matchesFamily content ["data", "analytics", "analysis"]
      = (includes (toLowerCase content) "data" || includes (toLowerCase content) "analytics"
          || includes (toLowerCase content) "analysis") := by
  simp [matchesFamily, List.any_cons, List.any_nil, Bool.or_assoc]

theorem matchesFamily_two (content : String) :
    matchesFamily content ["marketing", "brand", "campaign"]
      = (includes (toLowerCase content) "marketing" || includes (toLowerCase content) "brand"
          || includes (toLowerCase content) "campaign") := by
  simp [matchesFamily, List.any_cons, List.any_nil, Bool.or_assoc]

theorem matchesFamily_three (content : String) :
    matchesFamily content ["leadership", "management", "team"]
      = (includes (toLowerCase content) "leadership" || includes (toLowerCase content) "management"
          || includes (toLowerCase content) "team") := by
  simp [matchesFamily, List.any_cons, List.any_nil, Bool.or_assoc]

theorem matchesFamily_four (content : String) :
    matchesFamily content ["tech", "software", "developer"]
      = (includes (toLowerCase content) "tech" || includes (toLowerCase content) "software"
          || includes (toLowerCase content) "developer") := by
  simp [matchesFamily, List.any_cons, List.any_nil, Bool.or_assoc]

/-- The fallback generator is exactly: collect the matched families'
suggestions in precedence order, substitute the two defaults when nothing
matched, truncate to 2. -/
theorem fallback_eq_matched (content : String) :
    generateFallbackSuggestions content
      = (if matchedSuggestions content = [] then defaultSuggestions else matchedSuggestions content).take 2 := by
  cases h1 : includes (toLowerCase content) "data" || includes (toLowerCase content) "analytics" || includes (toLowerCase content) "analysis" <;>
  cases h2 : includes (toLowerCase content) "marketing" || includes (toLowerCase content) "brand" || includes (toLowerCase content) "campaign" <;>
  cases h3 : includes (toLowerCase content) "leadership" || includes (toLowerCase content) "management" || includes (toLowerCase content) "team" <;>
  cases h4 : includes (toLowerCase content) "tech" || includes (toLowerCase content) "software" || includes (toLowerCase content) "developer" <;>
  simp [generateFallbackSuggestions, matchedSuggestions, keywordFamilies, defaultSuggestions,
        matchesFamily_one, matchesFamily_two, matchesFamily_three, matchesFamily_four,
        List.filter_cons, h1, h2, h3, h4]

/-- The fallback generator never returns the empty list. -/
theorem generateFallback_ne_nil (content : String) :
    generateFallbackSuggestions content ≠ [] := by
  cases h1 : includes (toLowerCase content) "data" || includes (toLowerCase content) "analytics" || includes (toLowerCase content) "analysis" <;>
  cases h2 : includes (toLowerCase content) "marketing" || includes (toLowerCase content) "brand" || includes (toLowerCase content) "campaign" <;>
  cases h3 : includes (toLowerCase content) "leadership" || includes (toLowerCase content) "management" || includes (toLowerCase content) "team" <;>
  cases h4 : includes (toLowerCase content) "tech" || includes (toLowerCase content) "software" || includes (toLowerCase content) "developer" <;>
  simp [generateFallbackSuggestions, h1, h2, h3, h4]

/-- The fallback generator returns at most 2 suggestions. -/
theorem generateFallback_length_le (content : String) :
    (generateFallbackSuggestions content).length ≤ 2 := by
  cases h1 : includes (toLowerCase content) "data" || includes (toLowerCase content) "analytics" || includes (toLowerCase content) "analysis" <;>
  cases h2 : includes (toLowerCase content) "marketing" || includes (toLowerCase content) "brand" || includes (toLowerCase content) "campaign" <;>
  cases h3 : includes (toLowerCase content) "leadership" || includes (toLowerCase content) "management" || includes (toLowerCase content) "team" <;>
  cases h4 : includes (toLowerCase content) "tech" || includes (toLowerCase content) "software" || includes (toLowerCase content) "developer" <;>
  simp [generateFallbackSuggestions, h1, h2, h3, h4]

/-- Slicing to 2 and normalizing leaves the fallback suggestions unchanged:
they already number at most 2, are non-null objects, and have truthy string
fields. -/
theorem fallback_normalize (content : String) :
    mapSuggestions (((generateFallbackSuggestions content).map Suggestion.toJVal).take 2)
      = Except.ok ((generateFallbackSuggestions content).map Suggestion.toJVal) := by
  cases h1 : includes (toLowerCase content) "data" || includes (toLowerCase content) "analytics" || includes (toLowerCase content) "analysis" <;>
  cases h2 : includes (toLowerCase content) "marketing" || includes (toLowerCase content) "brand" || includes (toLowerCase content) "campaign" <;>
  cases h3 : includes (toLowerCase content) "leadership" || includes (toLowerCase content) "management" || includes (toLowerCase content) "team" <;>
  cases h4 : includes (toLowerCase content) "tech" || includes (toLowerCase content) "software" || includes (toLowerCase content) "developer" <;>
  simp +decide [generateFallbackSuggestions, Suggestion.toJVal, mapSuggestions, normalizeSuggestion,
    getProp, jsOr, jsTruthy, List.lookup, h1, h2, h3, h4] <;> rfl

/-- A non-null element normalizes without throwing, to a record of exactly
the fields `title` and `description`. -/
theorem normalizeSuggestion_ok_of_ne_null (j : JVal) (h : j ≠ JVal.null) :
    ∃ v, normalizeSuggestion j = Except.ok v
      ∧ ∃ t d : JVal, v = JVal.obj [("title", t), ("description", d)] := by
  cases j with
  | null => exact absurd rfl h
  | bool b => exact ⟨_, rfl, _, _, rfl⟩
  | num n => exact ⟨_, rfl, _, _, rfl⟩
  | str s => exact ⟨_, rfl, _, _, rfl⟩
  | arr es => exact ⟨_, rfl, _, _, rfl⟩
  | obj fs => exact ⟨_, rfl, _, _, rfl⟩

/-- A list free of `null` maps without throwing, every output a record of
exactly the fields `title` and `description`. -/
theorem mapSuggestions_ok (l : List JVal) (h : JVal.null ∉ l) :
    ∃ out, mapSuggestions l = Except.ok out
      ∧ ∀ j ∈ out, ∃ t d : JVal, j = JVal.obj [("title", t), ("description", d)] := by
  induction l with
  | nil => exact ⟨[], rfl, by simp⟩
  | cons a l ih =>
      have ha : a ≠ JVal.null := fun h0 => h (h0 ▸ List.mem_cons_self a l)
      obtain ⟨v, hv, hvs⟩ := normalizeSuggestion_ok_of_ne_null a ha
      obtain ⟨out, hout, hsh⟩ := ih (fun h0 => h (List.mem_cons_of_mem a h0))
      refine ⟨v :: out, ?_, ?_⟩
      · simp only [mapSuggestions, hv, hout]
        rfl
      · intro j hj
        rcases List.mem_cons.mp hj with rfl | hj2
        · exact hvs
        · exact hsh j hj2

/-- A list containing `null` makes the normalization map throw. -/
theorem mapSuggestions_error (l : List JVal) (h : JVal.null ∈ l) :
    ∃ msg, mapSuggestions l = Except.error msg := by
  induction l with
  | nil => exact absurd h (List.not_mem_nil _)
  | cons a l ih =>
      rcases List.mem_cons.mp h with rfl | hmem
      · exact ⟨_, rfl⟩
      · cases hv : normalizeSuggestion a with
        | error m => exact ⟨m, by simp only [mapSuggestions, hv]; rfl⟩
        | ok v =>
            obtain ⟨msg, hmsg⟩ := ih hmem
            exact ⟨msg, by simp only [mapSuggestions, hv, hmsg]; rfl⟩

/-! ## Claim C1 — missing credential -/

/-- C1 counterexample: the variant server's resolver (src/unnamed/part_000)
does NOT return the fallback result when no credential is configured — it
throws `'OpenAI API key not configured'`, and the handler's catch classifier
surfaces that message (which contains `"API key"`) to the caller as a 500
configuration error. -/
theorem c1_variant_throws_counterexample :
    analyzeWithOpenAIV0 false (Except.ok "[]") "a linkedin data post"
        = Except.error "OpenAI API key not configured"
    ∧ analyzeWithOpenAIV0 false (Except.ok "[]") "a linkedin data post"
        ≠ Except.ok ((generateFallbackSuggestions "a linkedin data post").map Suggestion.toJVal)
    ∧ classifyCatch "OpenAI API key not configured" = Response.err 500 "Service configuration error" := by
  refine ⟨rfl, ?_, rfl⟩
  intro h
  rw [show analyzeWithOpenAIV0 false (Except.ok "[]") "a linkedin data post"
      = Except.error "OpenAI API key not configured" from rfl] at h
  exact Except.noConfusion h

/-- C1 (amended): for the main server (src/server.js), a missing credential
makes the resolver return the Fallback Generator's result without raising,
and the handler answers 200; the variant resolver of src/unnamed/part_000
instead throws a configuration error. -/
theorem c1_no_credential_fallback (content : String) (ext : Except String String)
    (hlen : 10 ≤ content.length) :
    analyzeWithOpenAI false ext content = (generateFallbackSuggestions content).map Suggestion.toJVal
    ∧ (handleAnalyzeContent false ext (some (JVal.str content))).1
        = Response.ok ((generateFallbackSuggestions content).map Suggestion.toJVal) content.length
    ∧ analyzeWithOpenAIV0 false ext content = Except.error "OpenAI API key not configured" := by
  refine ⟨rfl, ?_, rfl⟩
  have hne : content ≠ "" := by
    intro h0
    rw [h0] at hlen
    simp at hlen
  have htruthy : jsTruthy (JVal.str content) = true := by
    simp [jsTruthy, bne, hne]
  have hlt : jsLtTen (some (JVal.num (content.length : Int))) = false := by
    simp only [jsLtTen, decide_eq_false_iff_not, not_lt]
    exact_mod_cast hlen
  simp [handleAnalyzeContent, jsTruthyOpt, htruthy, jsLength, Option.bind, hlt, analyzeWithOpenAI]

/-- C1 witness: the amended statement at a concrete content. -/
theorem c1_no_credential_fallback_witness :
    analyzeWithOpenAI false (Except.ok "[]") "a data analysis post"
        = (generateFallbackSuggestions "a data analysis post").map Suggestion.toJVal
    ∧ (handleAnalyzeContent false (Except.ok "[]") (some (JVal.str "a data analysis post"))).1
        = Response.ok ((generateFallbackSuggestions "a data analysis post").map Suggestion.toJVal)
            "a data analysis post".length
    ∧ analyzeWithOpenAIV0 false (Except.ok "[]") "a data analysis post"
        = Except.error "OpenAI API key not configured" :=
  c1_no_credential_fallback "a data analysis post" (Except.ok "[]") (by decide)

/-! ## Claim C2 — well-formed empty array -/

/-- C2 counterexample: when the external text is the well-formed empty array
`"[]"`, the resolver does not return an empty list — line 166's
`suggestions.length === 0` check replaces the empty array by the fallback
suggestions (two defaults here, since the content matches no keyword). -/
theorem c2_empty_array_counterexample :
    parseJson (cleanResponse "[]") = some (JVal.arr [])
    ∧ analyzeWithOpenAI true (Except.ok "[]") "just some plain post"
        = (generateFallbackSuggestions "just some plain post").map Suggestion.toJVal
    ∧ analyzeWithOpenAI true (Except.ok "[]") "just some plain post" ≠ [] := by
  refine ⟨rfl, rfl, ?_⟩
  intro h
  have h2 : (generateFallbackSuggestions "just some plain post").map Suggestion.toJVal = [] := h
  exact generateFallback_ne_nil "just some plain post" (List.map_eq_nil_iff.mp h2)

/-- C2 (amended): a returned text that parses as a well-formed but empty
JSON array is treated like an invalid response — the resolver returns the
Fallback Generator's result, not an empty Suggestion List. -/
theorem c2_empty_array_falls_back (content text : String)
    (h : parseJson (cleanResponse text) = some (JVal.arr [])) :
    analyzeWithOpenAI true (Except.ok text) content
      = (generateFallbackSuggestions content).map Suggestion.toJVal := by
  have hnorm : normalizeResponse content text
      = mapSuggestions (((generateFallbackSuggestions content).map Suggestion.toJVal).take 2) := by
    simp [normalizeResponse, h]
  simp [analyzeWithOpenAI, hnorm, fallback_normalize]

/-- C2 witness: the amended statement at a concrete content and text. -/
theorem c2_empty_array_falls_back_witness :
    analyzeWithOpenAI true (Except.ok "[]") "a lovely morning here"
      = (generateFallbackSuggestions "a lovely morning here").map Suggestion.toJVal :=
  c2_empty_array_falls_back "a lovely morning here" "[]" rfl

/-! ## Claim C3 — minimum-length validation -/

/-- C3: a request whose `content` is absent, or is a string shorter than 10
characters, is answered 400 with the validation message and the resolver is
never invoked. -/
theorem c3_short_content_rejected (apiKeyConfigured : Bool) (ext : Except String String)
    (content : Option JVal)
    (h : content = none ∨ ∃ s : String, content = some (JVal.str s) ∧ s.length < 10) :
    handleAnalyzeContent apiKeyConfigured ext content
      = (Response.err 400 "Content is required and must be at least 10 characters long", false) := by
  rcases h with rfl | ⟨s, rfl, hs⟩
  · simp [handleAnalyzeContent, jsTruthyOpt]
  · by_cases hse : s = ""
    · subst hse
      simp [handleAnalyzeContent, jsTruthyOpt, jsTruthy]
    · have htruthy : jsTruthy (JVal.str s) = true := by simp [jsTruthy, bne, hse]
      have hlt : jsLtTen (some (JVal.num (s.length : Int))) = true := by
        simp only [jsLtTen, decide_eq_true_eq]
        exact_mod_cast hs
      simp [handleAnalyzeContent, jsTruthyOpt, htruthy, jsLength, Option.bind, hlt]

/-- C3 witness: the statement at a concrete short string. -/
theorem c3_short_content_rejected_witness :
    handleAnalyzeContent true (Except.ok "[]") (some (JVal.str "short"))
      = (Response.err 400 "Content is required and must be at least 10 characters long", false) :=
  c3_short_content_rejected true (Except.ok "[]") (some (JVal.str "short"))
    (Or.inr ⟨"short", rfl, by decide⟩)

/-! ## Claim C4 — no keyword matches -/

/-- C4: content whose lower-cased form contains none of the twelve keywords
makes the Fallback Generator return exactly the two default suggestions,
"Professional Development" then "Network Growth". -/
theorem c4_no_keyword_defaults (content : String)
    (h : ∀ kw ∈ allKeywords, includes (toLowerCase content) kw = false) :
    generateFallbackSuggestions content =
      [⟨"Professional Development", "Discover learning opportunities related to this topic"⟩,
       ⟨"Network Growth", "Connect with professionals in your field"⟩] := by
  have h1 := h "data" (by decide)
  have h2 := h "analytics" (by decide)
  have h3 := h "analysis" (by decide)
  have h4 := h "marketing" (by decide)
  have h5 := h "brand" (by decide)
  have h6 := h "campaign" (by decide)
  have h7 := h "leadership" (by decide)
  have h8 := h "management" (by decide)
  have h9 := h "team" (by decide)
  have h10 := h "tech" (by decide)
  have h11 := h "software" (by decide)
  have h12 := h "developer" (by decide)
  simp [generateFallbackSuggestions, h1, h2, h3, h4, h5, h6, h7, h8, h9, h10, h11, h12]

/-- C4 witness: the statement at a concrete keyword-free content. -/
theorem c4_no_keyword_defaults_witness :
    generateFallbackSuggestions "hello world!!" =
      [⟨"Professional Development", "Discover learning opportunities related to this topic"⟩,
       ⟨"Network Growth", "Connect with professionals in your field"⟩] :=
  c4_no_keyword_defaults "hello world!!" (by decide)

/-! ## Claim C5 — family precedence and truncation -/

/-- C5: the Fallback Generator collects one fixed suggestion per matched
family in the precedence order data, marketing, leadership, tech, and
truncates to at most 2 preserving that order; when at least one family
matches the result is exactly the first two matched families' suggestions. -/
theorem c5_family_precedence (content : String) :
    generateFallbackSuggestions content
      = (if matchedSuggestions content = [] then defaultSuggestions else matchedSuggestions content).take 2
    ∧ (generateFallbackSuggestions content).length ≤ 2
    ∧ (matchedSuggestions content ≠ [] →
        generateFallbackSuggestions content = (matchedSuggestions content).take 2) := by
  refine ⟨fallback_eq_matched content, generateFallback_length_le content, fun hne => ?_⟩
  rw [fallback_eq_matched content, if_neg hne]

/-- C5 witness: content matching three families keeps only the first two,
in precedence order. -/
theorem c5_family_precedence_witness :
    matchedSuggestions "data marketing team post" ≠ []
    ∧ generateFallbackSuggestions "data marketing team post"
        = (matchedSuggestions "data marketing team post").take 2 :=
  ⟨by decide, (c5_family_precedence "data marketing team post").2.2 (by decide)⟩

/-! ## Claim C6 — markdown fence stripping -/

/-- C6: the exact fenced text yields one suggestion with title "X" and the
default description. -/
theorem c6_fence_stripping (content : String) :
    analyzeWithOpenAI true (Except.ok "```json\n[\x7b\"title\":\"X\"\x7d]\n```") content
      = [JVal.obj [("title", JVal.str "X"),
                   ("description", JVal.str "Explore related opportunities on LinkedIn")]] := rfl

/-! ## Claim C7 — invalid JSON equals the no-credential case -/

/-- C7: when the external call succeeds with text that is not valid JSON,
the resolver's output equals the no-credential output, both equal to the
Fallback Generator's result, and the no-credential output does not depend
on the external outcome. -/
theorem c7_invalid_json_matches_no_key (content text : String) (hlen : 10 ≤ content.length)
    (hbad : parseJson (cleanResponse text) = none) :
    analyzeWithOpenAI true (Except.ok text) content = analyzeWithOpenAI false (Except.ok text) content
    ∧ analyzeWithOpenAI false (Except.ok text) content
        = (generateFallbackSuggestions content).map Suggestion.toJVal
    ∧ (∀ e e' : Except String String,
        analyzeWithOpenAI false e content = analyzeWithOpenAI false e' content) := by
  refine ⟨?_, rfl, fun e e' => rfl⟩
  have hlen0 : ((generateFallbackSuggestions content).map Suggestion.toJVal).length = 0 → False := by
    intro h0
    exact generateFallback_ne_nil content
      (List.map_eq_nil_iff.mp (List.length_eq_zero.mp h0))
  have hnorm : normalizeResponse content text
      = mapSuggestions (((generateFallbackSuggestions content).map Suggestion.toJVal).take 2) := by
    simp [normalizeResponse, hbad, hlen0]
  have hfalse : analyzeWithOpenAI false (Except.ok text) content
      = (generateFallbackSuggestions content).map Suggestion.toJVal := rfl
  rw [hfalse]
  simp [analyzeWithOpenAI, hnorm, fallback_normalize]

/-- C7 witness: the statement at a concrete content and invalid text. -/
theorem c7_invalid_json_matches_no_key_witness :
    analyzeWithOpenAI true (Except.ok "not json at all") "hello world!" =
      analyzeWithOpenAI false (Except.ok "not json at all") "hello world!"
    ∧ analyzeWithOpenAI false (Except.ok "not json at all") "hello world!"
        = (generateFallbackSuggestions "hello world!").map Suggestion.toJVal
    ∧ (∀ e e' : Except String String,
        analyzeWithOpenAI false e "hello world!" = analyzeWithOpenAI false e' "hello world!") :=
  c7_invalid_json_matches_no_key "hello world!" "not json at all" (by decide) rfl

/-! ## Claim C8 — shape of normalized suggestions -/

/-- C8 counterexample: a non-empty array whose element carries a truthy
non-string `title` (the number 5) is passed through by `title || default`,
so the normalized element is not a record of two string fields. -/
theorem c8_nonstring_field_counterexample :
    parseJson "[\x7b\"title\":5\x7d]" = some (JVal.arr [JVal.obj [("title", JVal.num 5)]])
    ∧ analyzeWithOpenAI true (Except.ok "[\x7b\"title\":5\x7d]") "a post about things"
        = [JVal.obj [("title", JVal.num 5),
                     ("description", JVal.str "Explore related opportunities on LinkedIn")]]
    ∧ (analyzeWithOpenAI true (Except.ok "[\x7b\"title\":5\x7d]") "a post about things").all
        isTitleDescriptionStrings = false :=
  ⟨rfl, rfl, rfl⟩

/-- C8 (amended): for a non-empty parsed array whose first two elements are
not `null`, the resolver returns those elements normalized, each a record
of exactly the two fields `title` and `description` (a missing or falsy
field is replaced by the fixed default, a present truthy field keeps the
array's value — string or not); when `null` is among the first two
elements, the map callback's property access throws and the resolver
returns the Fallback Generator's result instead. -/
theorem c8_two_field_records (content text : String) (elems : List JVal)
    (hparse : parseJson (cleanResponse text) = some (JVal.arr elems)) (hne : elems ≠ []) :
    (JVal.null ∉ elems.take 2 →
      ∃ out : List JVal, mapSuggestions (elems.take 2) = Except.ok out
        ∧ analyzeWithOpenAI true (Except.ok text) content = out
        ∧ ∀ j ∈ out, ∃ t d : JVal, j = JVal.obj [("title", t), ("description", d)])
    ∧ (JVal.null ∈ elems.take 2 →
      analyzeWithOpenAI true (Except.ok text) content
        = (generateFallbackSuggestions content).map Suggestion.toJVal) := by
  have hlen0 : ¬ (elems.length = 0) := fun h0 => hne (List.length_eq_zero.mp h0)
  have hnorm : normalizeResponse content text = mapSuggestions (elems.take 2) := by
    simp [normalizeResponse, hparse, hlen0]
  constructor
  · intro h0
    obtain ⟨out, hok, hshape⟩ := mapSuggestions_ok (elems.take 2) h0
    exact ⟨out, hok, by simp [analyzeWithOpenAI, hnorm, hok], hshape⟩
  · intro h0
    obtain ⟨msg, herr⟩ := mapSuggestions_error (elems.take 2) h0
    simp [analyzeWithOpenAI, hnorm, herr]

/-- C8 witness: the non-null branch at the one-element array `[{}]`, and
the null branch at `[null]`, where the resolver falls back (here to the
data-family suggestion). -/
theorem c8_two_field_records_witness :
    (∃ out : List JVal, mapSuggestions ([JVal.obj []].take 2) = Except.ok out
      ∧ analyzeWithOpenAI true (Except.ok "[\x7b\x7d]") "irrelevant content" = out
      ∧ ∀ j ∈ out, ∃ t d : JVal, j = JVal.obj [("title", t), ("description", d)])
    ∧ analyzeWithOpenAI true (Except.ok "[null]") "a post about data stuff"
        = (generateFallbackSuggestions "a post about data stuff").map Suggestion.toJVal :=
  ⟨(c8_two_field_records "irrelevant content" "[\x7b\x7d]" [JVal.obj []] rfl (by simp)).1 (by simp),
   (c8_two_field_records "a post about data stuff" "[null]" [JVal.null] rfl (by simp)).2 (by simp)⟩

/-! ## Claim C9 — catch-branch classification -/

/-- C9 counterexample: a failure message containing both `"API key"` and
`"rate limit"` is answered 500, not 429 — the `"API key"` test runs first. -/
theorem c9_overlap_counterexample :
    includes "Invalid API key caused rate limit check to abort" "rate limit" = true
    ∧ classifyCatch "Invalid API key caused rate limit check to abort"
        ≠ Response.err 429 "Service temporarily busy, please try again"
    ∧ classifyCatch "Invalid API key caused rate limit check to abort"
        = Response.err 500 "Service configuration error" := by
  refine ⟨rfl, ?_, rfl⟩
  intro h
  rw [show classifyCatch "Invalid API key caused rate limit check to abort"
      = Response.err 500 "Service configuration error" from rfl] at h
  injection h with h1 h2
  exact absurd h1 (by decide)

/-- C9 (amended): the catch branch checks `"API key"` first (500,
configuration error); otherwise `"rate limit"` yields 429; any other
message yields the generic 500. -/
theorem c9_error_classification (message : String) :
    (includes message "API key" = true →
      classifyCatch message = Response.err 500 "Service configuration error")
    ∧ (includes message "API key" = false → includes message "rate limit" = true →
      classifyCatch message = Response.err 429 "Service temporarily busy, please try again")
    ∧ (includes message "API key" = false → includes message "rate limit" = false →
      classifyCatch message = Response.err 500 "Analysis temporarily unavailable") := by
  refine ⟨fun h1 => ?_, fun h1 h2 => ?_, fun h1 h2 => ?_⟩ <;>
  simp [classifyCatch, h1]
  · simp [h2]
  · simp [h2]

/-- C9 witness: the amended statement at a pure rate-limit message. -/
theorem c9_error_classification_witness :
    classifyCatch "rate limit exceeded, slow down"
      = Response.err 429 "Service temporarily busy, please try again" :=
  (c9_error_classification "rate limit exceeded, slow down").2.1 (by decide) (by decide)

/-! ## Claim C10 — truthy non-string content -/

/-- C10 counterexample: the resolver is never invoked with non-string
content — the handler calls it only in the string branch, so no request
body exists for which a non-string content reaches
`generateFallbackSuggestions`. -/
theorem c10_resolver_not_invoked_counterexample :
    ¬ ∃ (v : JVal) (k : Bool) (e : Except String String),
        (∀ s : String, v ≠ JVal.str s)
        ∧ (handleAnalyzeContent k e (some v)).2 = true := by
  rintro ⟨v, k, e, hns, hinv⟩
  unfold handleAnalyzeContent at hinv
  split at hinv
  · simp at hinv
  · cases v with
    | str s => exact hns s rfl
    | null => simp at hinv
    | bool b => simp at hinv
    | num n => simp at hinv
    | arr es => simp at hinv
    | obj fs => simp at hinv

/-- C10 (amended): a truthy non-string content such as the number 12345
passes the minimum-length validation (its `length` is `undefined`, and
`undefined < 10` is false), the logging statement's
`content.substring(0, 100)` then faults before the resolver is invoked, and
the request surfaces as the generic 500 instead of a 400. -/
theorem c10_nonstring_generic_500 (k : Bool) (e : Except String String) :
    handleAnalyzeContent k e (some (JVal.num 12345))
      = (Response.err 500 "Analysis temporarily unavailable", false) := rfl

end Backend
